import Mathlib

/-!
Shallow embedding of the mentortyme booking core: the availability engine
(`user/utils.py`), the booking lifecycle and review views (`user/views.py`) and the
entities they operate on (`user/models.py`).

Modelling conventions:
* Time is measured in minutes on a single local (Kyiv, naive) timeline.  Times of day on
  the requested date (working-hour bounds, generated slot starts) are naturals — minutes
  since that date's midnight; busy-interval endpoints and booking timestamps are integers
  on the same scale, so that externally sourced intervals may extend beyond the day.
* Database tables are lists of rows; Django queryset filters become `List.filter` /
  `List.find?` / `List.any` over those lists.  Rows carry their primary key (`id`), and
  `delete()` of a fetched row removes the rows with its `id`.
* The Google-calendar boundary is modelled by its observable outcomes: `get_busy_periods`
  receives the remote interaction's outcome (`CalendarResponse`) instead of performing
  network I/O, and the best-effort event creations/deletions of the views are inputs
  (`Option Nat` event ids, `Bool` success flags).  All functions are total, which is the
  embedding of "never raises".
-/

/-- One busy interval as handled by `is_time_busy` (user/utils.py): the Python code uses
a dict with keys start and end holding naive local datetimes; here the endpoints are
minutes on the shared timeline. -/
structure BusyInterval where
  start : Int
  «end» : Int
deriving DecidableEq

/-- Status values of `Booking.STATUS_CHOICES` (user/models.py). -/
inductive BookingStatus where
  | confirmed
  | cancelled
  | completed
deriving DecidableEq

/-- A `Booking` row (user/models.py), restricted to the fields the verified operations
read or write.  `client` and `mentor` are the profile primary keys; the two optional
fields are the Google event ids recorded at creation. -/
structure Booking where
  id : Nat
  client : Nat
  mentor : Nat
  start_time : Int
  end_time : Int
  status : BookingStatus
  google_event_id : Option Nat
  client_google_event_id : Option Nat
deriving DecidableEq

/-- A `WorkingHour` row (user/models.py) for one mentor: weekday number 0..6 and the
start/end times of day, in minutes since midnight. -/
structure WorkingHour where
  day_of_week : Nat
  start_time : Nat
  end_time : Nat
deriving DecidableEq

/-- A `Review` row (user/models.py): one-to-one with a booking via `booking_id`. -/
structure Review where
  booking_id : Nat
  rating : Nat
  comment : String
  created_at : Int
deriving DecidableEq

/-- Observable outcome of the remote Google-calendar interaction inside
`get_busy_periods` (user/utils.py): either `get_google_calendar_service` returned `None`
(no linked calendar), or the FreeBusy query raised (network, auth, quota — any
exception), or it returned a list of busy intervals (already converted to naive local
minutes, as step 2.1 of `get_available_slots` does). -/
inductive CalendarResponse where
  | noCalendar
  | error
  | busyList (busy : List BusyInterval)
deriving DecidableEq

/-- `get_busy_periods` (user/utils.py): returns `[]` when the user has no linked
calendar and `[]` when the remote call fails; otherwise the fetched busy list.  Totality
of this function embeds "never raises". -/
def get_busy_periods (response : CalendarResponse) : List BusyInterval :=
  match response with
  | CalendarResponse.noCalendar => []
  | CalendarResponse.error => []
  | CalendarResponse.busyList busy => busy

/-- `is_time_busy` (user/utils.py): the slot `[slot_start, slot_end)` is busy iff it
half-open-intersects some busy interval. -/
def is_time_busy (slot_start slot_end : Int) (busy_intervals : List BusyInterval) : Bool :=
  busy_intervals.any fun busy => decide (slot_start < busy.«end» ∧ slot_end > busy.start)

/-- Step 3 of `get_available_slots` (user/utils.py): the while-loop that starts at
`current = work_start`, emits `current` when `is_time_busy` rejects no busy interval,
steps by `duration_minutes + 15`, and stops once `current + duration_minutes` would
exceed `work_end`.  Returns the accepted slot start times in generation order. -/
def available_slot_starts (current work_end duration_minutes : Nat)
    (busy : List BusyInterval) : List Nat :=
  if h : current + duration_minutes ≤ work_end then
    let rest :=
      available_slot_starts (current + (duration_minutes + 15)) work_end duration_minutes busy
    if is_time_busy (current : Int) ((current + duration_minutes : Nat) : Int) busy then rest
    else current :: rest
  else []
termination_by work_end + 1 - current
decreasing_by omega

/-- The candidate slots `[current, current + duration_minutes)` examined by the loop of
`get_available_slots`, before the busy filter, as (start, end) pairs. -/
def candidate_slots (current work_end duration_minutes : Nat) : List (Nat × Nat) :=
  if h : current + duration_minutes ≤ work_end then
    (current, current + duration_minutes) ::
      candidate_slots (current + (duration_minutes + 15)) work_end duration_minutes
  else []
termination_by work_end + 1 - current
decreasing_by omega

/-- Two-digit zero padding, as `strftime` produces for `%H` and `%M`. -/
def pad2 (n : Nat) : String :=
  if n < 10 then "0" ++ toString n else toString n

/-- `current_slot.strftime(%H:%M)` for a time of day given in minutes since midnight. -/
def strftime_HM (minutes : Nat) : String :=
  pad2 (minutes / 60) ++ ":" ++ pad2 (minutes % 60)

/-- Step 2.2 of `get_available_slots` (user/utils.py): the mentor's confirmed bookings,
turned into naive busy intervals.  The Django query filters on `mentor__user`,
`status='confirmed'` and `start_time__date=date_obj`; in this single-date embedding the
date filter is the identity, the list holding that date's rows. -/
def local_booking_intervals (bookings : List Booking) (mentor : Nat) : List BusyInterval :=
  (bookings.filter fun b => b.mentor == mentor && b.status == BookingStatus.confirmed).map
    fun b => ⟨b.start_time, b.end_time⟩

/-- `get_available_slots` (user/utils.py).  Step 1 looks up the first `WorkingHour` row
for the date's weekday (`filter(...).first()`) and returns `[]` when none exists; steps
2.1/2.2 collect external and local busy intervals; step 3 generates and filters the
slots and formats them `HH:MM`. -/
def get_available_slots (working_hours : List WorkingHour) (weekday : Nat)
    (calendar : CalendarResponse) (bookings : List Booking) (mentor : Nat)
    (duration_minutes : Nat) : List String :=
  match working_hours.find? fun wh => wh.day_of_week == weekday with
  | none => []
  | some working_hour =>
    let all_busy_intervals :=
      get_busy_periods calendar ++ local_booking_intervals bookings mentor
    (available_slot_starts working_hour.start_time working_hour.end_time duration_minutes
        all_busy_intervals).map strftime_HM

/-- The `has_active` check of `service_detail` (user/views.py, POST branch): does the
client already have a confirmed booking with this mentor whose `start_time >= now`? -/
def has_active (bookings : List Booking) (client mentor : Nat) (now : Int) : Bool :=
  bookings.any fun b =>
    b.client == client && b.mentor == mentor && b.status == BookingStatus.confirmed &&
      decide (now ≤ b.start_time)

/-- The booking-creation branch of `service_detail` (user/views.py): reject (state
unchanged, user warning) when `has_active`; otherwise persist a confirmed `Booking` with
`end_time = start_dt + service.duration` and the (best-effort, possibly `none`) Google
event ids. -/
def create_booking (bookings : List Booking) (new_id client mentor : Nat)
    (now start_dt : Int) (duration : Nat)
    (mentor_event_id client_event_id : Option Nat) : List Booking :=
  if has_active bookings client mentor now then bookings
  else
    bookings ++
      [⟨new_id, client, mentor, start_dt, start_dt + duration, BookingStatus.confirmed,
        mentor_event_id, client_event_id⟩]

/-- Half-open interval overlap of two bookings, the relation the cross-entity invariant
of the spec is about. -/
def overlap (b1 b2 : Booking) : Prop :=
  b1.start_time < b2.end_time ∧ b1.end_time > b2.start_time

instance (b1 b2 : Booking) : Decidable (overlap b1 b2) :=
  inferInstanceAs
    (Decidable (b1.start_time < b2.end_time ∧ b1.end_time > b2.start_time))

/-- The mentor-level invariant: no two confirmed bookings of `mentor` in the table
overlap. -/
def mentor_no_overlap (bookings : List Booking) (mentor : Nat) : Prop :=
  bookings.Pairwise fun b1 b2 =>
    ¬(b1.mentor = mentor ∧ b2.mentor = mentor ∧
      b1.status = BookingStatus.confirmed ∧ b2.status = BookingStatus.confirmed ∧
      overlap b1 b2)

instance (bookings : List Booking) (mentor : Nat) :
    Decidable (mentor_no_overlap bookings mentor) := by
  unfold mentor_no_overlap
  infer_instance

/-- Result of `cancel_booking` (user/views.py): the surviving table, whether the request
was rejected, and whether the mentor-side / client-side Google deletions were attempted
(entered their try-blocks). -/
structure CancelResult where
  bookings : List Booking
  rejected : Bool
  mentor_delete_attempted : Bool
  client_delete_attempted : Bool
deriving DecidableEq

/-- `cancel_booking` (user/views.py): reject when `booking.start_time < now` (nothing
deleted, no external call attempted); otherwise attempt the mentor-side deletion when an
event id was recorded and the mentor has a linked calendar, independently the
client-side one, and delete the row unconditionally — the success flags of the two
best-effort deletions are accepted as inputs and ignored. -/
def cancel_booking (bookings : List Booking) (booking : Booking) (now : Int)
    (mentor_has_calendar client_has_calendar : Bool)
    (mentor_delete_succeeds client_delete_succeeds : Bool) : CancelResult :=
  if booking.start_time < now then
    ⟨bookings, true, false, false⟩
  else
    ⟨bookings.filter fun b => b.id != booking.id, false,
      booking.google_event_id.isSome && mentor_has_calendar,
      booking.client_google_event_id.isSome && client_has_calendar⟩

/-- `hasattr(booking, review)` (user/views.py): the one-to-one reverse accessor exists
iff some review row references the booking. -/
def has_review (reviews : List Review) (booking_id : Nat) : Bool :=
  reviews.any fun r => r.booking_id == booking_id

/-- Validity of `ReviewForm` (user/forms.py): both model fields are required, `rating`
is a `PositiveIntegerField` with choices 1..5 and `comment` a required text field. -/
def review_form_valid (rating : Nat) (comment : String) : Bool :=
  decide (1 ≤ rating) && decide (rating ≤ 5) && !(comment == "")

/-- `add_review` (user/views.py): fetch the booking by id and requesting client (404
when absent), reject when a review already exists, otherwise validate the form and
persist one `Review` row with the submitted rating and comment and the creation
timestamp.  Returns the review table and whether a review was created.  The booking's
status and times are never consulted. -/
def add_review (bookings : List Booking) (reviews : List Review) (client booking_id : Nat)
    (rating : Nat) (comment : String) (now : Int) : List Review × Bool :=
  match bookings.find? fun b => b.id == booking_id && b.client == client with
  | none => (reviews, false)
  | some _ =>
    if has_review reviews booking_id then (reviews, false)
    else if review_form_valid rating comment then
      (reviews ++ [⟨booking_id, rating, comment, now⟩], true)
    else (reviews, false)

/-! Helper lemmas about the slot-generation loop. -/

/-- The loop equals the candidate list filtered by the busy test, projected to starts. -/
theorem available_slot_starts_eq_filter (current work_end d : Nat)
    (busy : List BusyInterval) :
    available_slot_starts current work_end d busy =
      ((candidate_slots current work_end d).filter
        fun p => !is_time_busy (p.1 : Int) (p.2 : Int) busy).map Prod.fst := by
  induction current, work_end, d, busy using available_slot_starts.induct with
  | case1 current work_end d busy h hb ih =>
    rw [available_slot_starts, candidate_slots]
    push_cast at hb
    simp only [h, dite_true, List.filter_cons]
    simp [hb, ih]
  | case2 current work_end d busy h hb ih =>
    rw [available_slot_starts, candidate_slots]
    simp only [Bool.not_eq_true] at hb
    push_cast at hb
    simp only [h, dite_true, List.filter_cons]
    simp [hb, ih]
  | case3 current work_end d busy h =>
    rw [available_slot_starts, candidate_slots]
    simp [h]

/-- Membership characterisation of the candidate list: exactly the pairs
`(current + k * (d + 15), start + d)` whose end fits in the working window. -/
theorem mem_candidate_slots (current work_end d : Nat) (p : Nat × Nat) :
    p ∈ candidate_slots current work_end d ↔
      p.2 = p.1 + d ∧ p.2 ≤ work_end ∧ ∃ k, p.1 = current + k * (d + 15) := by
  constructor
  · intro hp
    induction current, work_end, d using candidate_slots.induct with
    | case1 current work_end d h ih =>
      rw [candidate_slots] at hp
      simp only [h, dite_true, List.mem_cons] at hp
      rcases hp with hp | hp
      · subst hp
        exact ⟨rfl, h, 0, by simp⟩
      · obtain ⟨h1, h2, k, hk⟩ := ih hp
        exact ⟨h1, h2, k + 1, by rw [hk, Nat.succ_mul]; omega⟩
    | case2 current work_end d h =>
      rw [candidate_slots] at hp
      simp [h] at hp
  · rintro ⟨h1, h2, k, hk⟩
    induction k generalizing current with
    | zero =>
      simp only [Nat.zero_mul, Nat.add_zero] at hk
      rw [candidate_slots]
      have hfit : current + d ≤ work_end := by omega
      simp only [hfit, dite_true, List.mem_cons]
      left
      have hpair : p = (p.1, p.2) := rfl
      rw [hpair, hk, h1, hk]
    | succ k ih =>
      have hstep : p.1 = (current + (d + 15)) + k * (d + 15) := by
        rw [hk, Nat.succ_mul]; omega
      have hcur : current ≤ p.1 := by
        rw [hk]; omega
      have hfit : current + d ≤ work_end := by omega
      rw [candidate_slots]
      simp only [hfit, dite_true, List.mem_cons]
      right
      exact ih _ hstep

/-- The candidate starts strictly increase in generation order. -/
theorem candidate_slots_pairwise_lt (current work_end d : Nat) :
    (candidate_slots current work_end d).Pairwise fun p q => p.1 < q.1 := by
  induction current, work_end, d using candidate_slots.induct with
  | case1 current work_end d h ih =>
    rw [candidate_slots]
    simp only [h, dite_true]
    refine List.Pairwise.cons ?_ ih
    intro q hq
    obtain ⟨k, hk⟩ := ((mem_candidate_slots _ _ _ q).mp hq).2.2
    simp only
    omega
  | case2 current work_end d h =>
    rw [candidate_slots]
    simp [h]

/-- The emitted slot starts strictly increase. -/
theorem available_slot_starts_sorted (current work_end d : Nat)
    (busy : List BusyInterval) :
    (available_slot_starts current work_end d busy).Sorted (· < ·) := by
  rw [available_slot_starts_eq_filter]
  exact List.Pairwise.map _ (fun _ _ h => h)
    ((candidate_slots_pairwise_lt current work_end d).filter _)

/-- An accepted slot start overlaps no busy interval. -/
theorem mem_available_not_busy (current work_end d : Nat) (busy : List BusyInterval)
    (s : Nat) (hs : s ∈ available_slot_starts current work_end d busy) :
    ∀ b ∈ busy, ¬((s : Int) < b.«end» ∧ ((s + d : Nat) : Int) > b.start) := by
  rw [available_slot_starts_eq_filter] at hs
  obtain ⟨p, hp, hps⟩ := List.mem_map.mp hs
  obtain ⟨hpc, hpb⟩ := List.mem_filter.mp hp
  have h2 := ((mem_candidate_slots _ _ _ p).mp hpc).1
  intro b hb
  simp only [Bool.not_eq_true', is_time_busy, List.any_eq_false,
    decide_eq_true_eq] at hpb
  have hnb := hpb b hb
  intro hcontra
  apply hnb
  constructor
  · rw [hps]
    exact hcontra.1
  · rw [h2, hps]
    exact_mod_cast hcontra.2

/-! Claim theorems for the availability engine. -/

/-- Claim C2: a mentor working 09:00-12:00 on the requested weekday, duration 60 and no
busy intervals from either source yields exactly the slots 09:00 and 10:15; the 11:30
candidate is excluded because its end 12:30 exceeds 12:00. -/
theorem monday_scenario_slots :
    get_available_slots [⟨0, 540, 720⟩] 0 (CalendarResponse.busyList []) [] 7 60 =
      ["09:00", "10:15"] := by
  have h : available_slot_starts 540 720 60 [] = [540, 615] := by
    simp [available_slot_starts, is_time_busy]
  have h2 : get_available_slots [⟨0, 540, 720⟩] 0 (CalendarResponse.busyList []) [] 7 60 =
      (available_slot_starts 540 720 60 []).map strftime_HM := rfl
  rw [h2, h]
  rfl

/-- Claim C3: every accepted slot start `s` half-open-avoids every busy interval
(`NOT (s < b.end AND s + d > b.start)`); `is_time_busy` holds exactly when some busy
interval satisfies `slot_start < busy.end AND slot_end > busy.start`; and the loop's
output is precisely the candidates that pass that test. -/
theorem accepted_slots_avoid_busy (work_start work_end d : Nat)
    (busy : List BusyInterval) :
    (∀ s ∈ available_slot_starts work_start work_end d busy, ∀ b ∈ busy,
        ¬((s : Int) < b.«end» ∧ ((s + d : Nat) : Int) > b.start)) ∧
    (∀ slot_start slot_end : Int,
        is_time_busy slot_start slot_end busy = true ↔
          ∃ b ∈ busy, slot_start < b.«end» ∧ slot_end > b.start) ∧
    available_slot_starts work_start work_end d busy =
      ((candidate_slots work_start work_end d).filter
        fun p => !is_time_busy (p.1 : Int) (p.2 : Int) busy).map Prod.fst := by
  refine ⟨fun s hs => mem_available_not_busy _ _ _ _ _ hs, ?_,
    available_slot_starts_eq_filter _ _ _ _⟩
  intro slot_start slot_end
  simp [is_time_busy]

/-- Claim C3 witness: in the 09:00-12:00 window with one busy interval 09:00-10:00, the
accepted slot 10:15 does not overlap that busy interval. -/
theorem accepted_slots_avoid_busy_witness :
    ¬(((615 : Nat) : Int) < (600 : Int) ∧ (((615 + 60 : Nat)) : Int) > (540 : Int)) :=
  (accepted_slots_avoid_busy 540 720 60 [⟨540, 600⟩]).1 615
    (by simp [available_slot_starts, is_time_busy]) ⟨540, 600⟩ (by decide)

/-- Claim C4: the candidates are exactly the pairs `(work_start + k * (d + 15),
start + d)` — length exactly `d`, arithmetic progression of starts — whose end does not
exceed `work_end` (a partially fitting final slot is excluded); the accepted starts are
a sublist of the candidate starts and strictly ascend, which is the order they are
emitted in. -/
theorem candidate_slot_shape (work_start work_end d : Nat) (busy : List BusyInterval) :
    (∀ p, p ∈ candidate_slots work_start work_end d ↔
        p.2 = p.1 + d ∧ p.2 ≤ work_end ∧ ∃ k, p.1 = work_start + k * (d + 15)) ∧
    List.Sublist (available_slot_starts work_start work_end d busy)
      ((candidate_slots work_start work_end d).map Prod.fst) ∧
    (available_slot_starts work_start work_end d busy).Sorted (· < ·) := by
  refine ⟨fun p => mem_candidate_slots _ _ _ p, ?_, available_slot_starts_sorted _ _ _ _⟩
  rw [available_slot_starts_eq_filter]
  exact (List.filter_sublist _).map Prod.fst

/-- Claim C4 witness: in the 09:00-12:00 window with duration 60, the pair
(09:00, 10:00) is a generated candidate slot. -/
theorem candidate_slot_shape_witness :
    ((540, 600) : Nat × Nat) ∈ candidate_slots 540 720 60 :=
  ((candidate_slot_shape 540 720 60 []).1 (540, 600)).mpr
    ⟨by decide, by decide, 0, by decide⟩

/-- Claim C5: when no WorkingHour row matches the requested date's weekday,
`get_available_slots` returns the empty list, with no fallback default window. -/
theorem no_working_hour_no_slots (working_hours : List WorkingHour) (weekday : Nat)
    (calendar : CalendarResponse) (bookings : List Booking) (mentor d : Nat)
    (h : ∀ wh ∈ working_hours, wh.day_of_week ≠ weekday) :
    get_available_slots working_hours weekday calendar bookings mentor d = [] := by
  unfold get_available_slots
  have hf : (working_hours.find? fun wh => wh.day_of_week == weekday) = none := by
    rw [List.find?_eq_none]
    intro wh hwh
    simpa using h wh hwh
  rw [hf]

/-- Claim C5 witness: a mentor who works only on Tuesday (weekday 1) has no slots on a
Monday (weekday 0). -/
theorem no_working_hour_no_slots_witness :
    get_available_slots [⟨1, 540, 720⟩] 0 CalendarResponse.noCalendar [] 3 60 = [] :=
  no_working_hour_no_slots _ _ _ _ _ _ (by decide)

/-- Claim C6: `get_busy_periods` returns the empty list both when no calendar is linked
and when the remote call fails (and, being a total function, never raises); under a
gateway failure `get_available_slots` returns exactly what it returns with no external
busy data, i.e. the result computed from the local confirmed bookings alone. -/
theorem gateway_failure_degrades_to_local :
    get_busy_periods CalendarResponse.noCalendar = [] ∧
    get_busy_periods CalendarResponse.error = [] ∧
    ∀ (working_hours : List WorkingHour) (weekday : Nat) (bookings : List Booking)
      (mentor d : Nat),
      get_available_slots working_hours weekday CalendarResponse.error bookings mentor d =
        get_available_slots working_hours weekday (CalendarResponse.busyList []) bookings
          mentor d :=
  ⟨rfl, rfl, fun _ _ _ _ _ => rfl⟩

/-! Claim theorems for the booking lifecycle and reviews. -/

/-- Claim C1 fails as stated: the sequential booking flow never validates the submitted
start time against the generated slots, so a second client posting a time overlapping an
existing confirmed booking of the same mentor passes the `has_active` check and two
overlapping confirmed bookings result — no concurrency needed.  Mentor 0 already has a
confirmed booking 09:00-10:00 by client 1; client 2 books 09:30-10:30. -/
theorem sequential_overlap_counterexample :
    ¬mentor_no_overlap
      (create_booking [⟨1, 1, 0, 540, 600, BookingStatus.confirmed, none, none⟩]
        2 2 0 0 570 60 none none) 0 := by
  decide

/-- Claim C1 (amended): when the new booking's start time is one of the slots that
`available_slot_starts` generates from busy intervals including the mentor's current
confirmed bookings, and durations agree, the booking flow preserves the mentor's
no-overlap invariant; the flow itself does not enforce that the posted time is such a
slot. -/
theorem booking_from_generated_slot_keeps_no_overlap
    (bookings : List Booking) (new_id client mentor : Nat) (now : Int)
    (work_start work_end d : Nat) (google_busy : List BusyInterval) (s : Nat)
    (mentor_event_id client_event_id : Option Nat)
    (hinv : mentor_no_overlap bookings mentor)
    (hs : s ∈ available_slot_starts work_start work_end d
        (google_busy ++ local_booking_intervals bookings mentor)) :
    mentor_no_overlap
      (create_booking bookings new_id client mentor now (s : Int) d
        mentor_event_id client_event_id) mentor := by
  have hbusy := mem_available_not_busy _ _ _ _ _ hs
  unfold create_booking
  split
  · exact hinv
  · unfold mentor_no_overlap at hinv ⊢
    rw [List.pairwise_append]
    refine ⟨hinv, List.pairwise_singleton _ _, ?_⟩
    intro b hb nb hnb
    simp only [List.mem_singleton] at hnb
    subst hnb
    rintro ⟨hbm, -, hbc, -, hov⟩
    have hmem : (⟨b.start_time, b.end_time⟩ : BusyInterval) ∈
        google_busy ++ local_booking_intervals bookings mentor := by
      apply List.mem_append_right
      exact List.mem_map.mpr ⟨b, List.mem_filter.mpr ⟨hb, by simp [hbm, hbc]⟩, rfl⟩
    obtain ⟨hov1, hov2⟩ := hov
    refine hbusy _ hmem ⟨?_, ?_⟩
    · exact hov2
    · push_cast
      exact hov1

/-- Claim C1 (amended) witness: mentor 0 has a confirmed booking 09:00-10:00; the
engine offers 10:15, and booking that slot keeps the mentor's confirmed bookings
non-overlapping. -/
theorem booking_from_generated_slot_keeps_no_overlap_witness :
    mentor_no_overlap
      (create_booking [⟨1, 1, 0, 540, 600, BookingStatus.confirmed, none, none⟩]
        2 2 0 0 ((615 : Nat) : Int) 60 none none) 0 :=
  booking_from_generated_slot_keeps_no_overlap
    [⟨1, 1, 0, 540, 600, BookingStatus.confirmed, none, none⟩] 2 2 0 0 540 720 60 [] 615
    none none (by decide)
    (by
      show (615 : Nat) ∈ available_slot_starts 540 720 60 [⟨(540 : Int), (600 : Int)⟩]
      simp [available_slot_starts, is_time_busy])

/-- Claim C7: a client holding a confirmed booking with this mentor whose start time is
not in the past is rejected — the table is unchanged, nothing persisted; the same client,
holding no such booking with a second mentor, successfully books that mentor. -/
theorem duplicate_mentor_booking_rejected
    (bookings : List Booking) (id1 id2 client mentor mentor2 : Nat) (now s1 s2 : Int)
    (d1 d2 : Nat) (me1 ce1 me2 ce2 : Option Nat)
    (hact : has_active bookings client mentor now = true)
    (hother : ∀ b ∈ bookings,
      ¬(b.client = client ∧ b.mentor = mentor2 ∧ b.status = BookingStatus.confirmed ∧
        now ≤ b.start_time)) :
    create_booking bookings id1 client mentor now s1 d1 me1 ce1 = bookings ∧
    create_booking bookings id2 client mentor2 now s2 d2 me2 ce2 =
      bookings ++
        [⟨id2, client, mentor2, s2, s2 + d2, BookingStatus.confirmed, me2, ce2⟩] := by
  constructor
  · simp [create_booking, hact]
  · have hfree : has_active bookings client mentor2 now = false := by
      simp only [has_active, List.any_eq_false, Bool.and_eq_true, beq_iff_eq,
        decide_eq_true_eq, not_and]
      intro b hb
      have := hother b hb
      tauto
    simp [create_booking, hfree]

/-- Claim C7 witness: client 1 has a confirmed future booking with mentor 0, is rejected
from booking mentor 0 again, and still books mentor 5. -/
theorem duplicate_mentor_booking_rejected_witness :
    create_booking [⟨1, 1, 0, 100, 160, BookingStatus.confirmed, none, none⟩]
        2 1 0 0 300 60 none none =
      [⟨1, 1, 0, 100, 160, BookingStatus.confirmed, none, none⟩] ∧
    create_booking [⟨1, 1, 0, 100, 160, BookingStatus.confirmed, none, none⟩]
        3 1 5 0 300 60 none none =
      [⟨1, 1, 0, 100, 160, BookingStatus.confirmed, none, none⟩] ++
        [⟨3, 1, 5, 300, 300 + 60, BookingStatus.confirmed, none, none⟩] :=
  duplicate_mentor_booking_rejected
    [⟨1, 1, 0, 100, 160, BookingStatus.confirmed, none, none⟩] 2 3 1 0 5 0 300 300 60 60
    none none none none (by decide) (by decide)

/-- Claim C8: cancelling a booking whose start time is already past is rejected — the
table is unchanged and neither external deletion is attempted; otherwise the row is
deleted, an external deletion is attempted exactly when that side recorded an event id
and has a linked calendar, and the outcome is the same whatever the two best-effort
deletions' success flags are. -/
theorem cancel_booking_spec (bookings : List Booking) (booking : Booking) (now : Int)
    (mentor_has_calendar client_has_calendar msucc csucc : Bool) :
    (booking.start_time < now →
      cancel_booking bookings booking now mentor_has_calendar client_has_calendar
          msucc csucc =
        ⟨bookings, true, false, false⟩) ∧
    (¬booking.start_time < now →
      cancel_booking bookings booking now mentor_has_calendar client_has_calendar
          msucc csucc =
        ⟨bookings.filter fun b => b.id != booking.id, false,
          booking.google_event_id.isSome && mentor_has_calendar,
          booking.client_google_event_id.isSome && client_has_calendar⟩) ∧
    (∀ msucc' csucc',
      cancel_booking bookings booking now mentor_has_calendar client_has_calendar
          msucc csucc =
        cancel_booking bookings booking now mentor_has_calendar client_has_calendar
          msucc' csucc') :=
  ⟨fun h => by simp [cancel_booking, h], fun h => by simp [cancel_booking, h],
    fun _ _ => rfl⟩

/-- Claim C8 witness: a booking starting at 100 is not cancellable at now = 200 (table
untouched, no external attempt), and is cancelled at now = 0 (row gone). -/
theorem cancel_booking_spec_witness :
    cancel_booking [⟨1, 1, 0, 100, 160, BookingStatus.confirmed, none, none⟩]
        ⟨1, 1, 0, 100, 160, BookingStatus.confirmed, none, none⟩ 200 true true false false =
      ⟨[⟨1, 1, 0, 100, 160, BookingStatus.confirmed, none, none⟩], true, false, false⟩ ∧
    cancel_booking [⟨1, 1, 0, 100, 160, BookingStatus.confirmed, none, none⟩]
        ⟨1, 1, 0, 100, 160, BookingStatus.confirmed, none, none⟩ 0 true true false false =
      ⟨[], false, false, false⟩ :=
  ⟨(cancel_booking_spec [⟨1, 1, 0, 100, 160, BookingStatus.confirmed, none, none⟩]
      ⟨1, 1, 0, 100, 160, BookingStatus.confirmed, none, none⟩ 200 true true false
      false).1 (by decide),
   (cancel_booking_spec [⟨1, 1, 0, 100, 160, BookingStatus.confirmed, none, none⟩]
      ⟨1, 1, 0, 100, 160, BookingStatus.confirmed, none, none⟩ 0 true true false
      false).2.1 (by decide)⟩

/-- Claim C9: with the booking present for the requesting client, a second review for it
is rejected and creates nothing, while a first review with a valid rating and comment
persists exactly one Review row carrying that rating, comment and creation timestamp. -/
theorem review_created_once (bookings : List Booking) (reviews : List Review)
    (client booking_id rating : Nat) (comment : String) (now : Int)
    (hfound : (bookings.find? fun b => b.id == booking_id && b.client == client).isSome) :
    (has_review reviews booking_id = true →
      add_review bookings reviews client booking_id rating comment now =
        (reviews, false)) ∧
    (has_review reviews booking_id = false →
      review_form_valid rating comment = true →
      add_review bookings reviews client booking_id rating comment now =
        (reviews ++ [⟨booking_id, rating, comment, now⟩], true) ∧
      ((reviews ++ [(⟨booking_id, rating, comment, now⟩ : Review)]).countP
          fun r => r.booking_id == booking_id) = 1) := by
  obtain ⟨b, hb⟩ := Option.isSome_iff_exists.mp hfound
  constructor
  · intro hr
    simp [add_review, hb, hr]
  · intro hr hv
    constructor
    · simp [add_review, hb, hr, hv]
    · have h0 : reviews.countP (fun r => r.booking_id == booking_id) = 0 := by
        rw [List.countP_eq_zero]
        unfold has_review at hr
        rw [List.any_eq_false] at hr
        exact hr
      simp [List.countP_append, h0, List.countP_cons]

/-- Claim C9 witness: booking 1's second review is rejected; its first review with
rating 5 and a nonempty comment is persisted. -/
theorem review_created_once_witness :
    add_review [⟨1, 1, 0, 100, 160, BookingStatus.confirmed, none, none⟩]
        [⟨1, 5, "ok", 0⟩] 1 1 4 "late" 9 = ([⟨1, 5, "ok", 0⟩], false) ∧
    add_review [⟨1, 1, 0, 100, 160, BookingStatus.confirmed, none, none⟩] [] 1 1 5 "ok"
        9 = ([⟨1, 5, "ok", 9⟩], true) :=
  ⟨(review_created_once [⟨1, 1, 0, 100, 160, BookingStatus.confirmed, none, none⟩]
      [⟨1, 5, "ok", 0⟩] 1 1 4 "late" 9 (by decide)).1 (by decide),
   ((review_created_once [⟨1, 1, 0, 100, 160, BookingStatus.confirmed, none, none⟩] []
      1 1 5 "ok" 9 (by decide)).2 (by decide) (by decide)).1⟩

/-- Claim C10: `add_review` never consults the booking's status or times: any booking
row fetched for the requesting client that has no review yet accepts a valid rating and
comment, whatever its status — in particular a confirmed booking whose end time is still
in the future. -/
theorem review_ignores_booking_status (bookings : List Booking) (reviews : List Review)
    (client rating : Nat) (comment : String) (now : Int) (b : Booking)
    (hfind : (bookings.find? fun x => x.id == b.id && x.client == client) = some b)
    (hnone : has_review reviews b.id = false)
    (hvalid : review_form_valid rating comment = true) :
    add_review bookings reviews client b.id rating comment now =
      (reviews ++ [⟨b.id, rating, comment, now⟩], true) := by
  simp [add_review, hfind, hnone, hvalid]

/-- Claim C10 witness: booking 2 is confirmed and its end time 160 is still in the
future at now = 7, yet its first review is accepted. -/
theorem review_ignores_booking_status_witness :
    BookingStatus.confirmed = BookingStatus.confirmed ∧ (7 : Int) < 160 ∧
    add_review [⟨2, 1, 0, 100, 160, BookingStatus.confirmed, none, none⟩] [] 1 2 4
        "great" 7 = ([⟨2, 4, "great", 7⟩], true) :=
  ⟨rfl, by decide,
    review_ignores_booking_status
      [⟨2, 1, 0, 100, 160, BookingStatus.confirmed, none, none⟩] [] 1 4 "great" 7
      ⟨2, 1, 0, 100, 160, BookingStatus.confirmed, none, none⟩ (by decide) (by decide)
      (by decide)⟩
